import Mathlib

/-!
Verification development for the cc-switch failover proxy service.

We shallowly embed the failover switch manager
(`crates/cc-switch-core/src/proxy/failover_switch.rs`), the Gemini MCP sync
module (`crates/cc-switch-core/src/mcp/gemini.rs`) and the relevant control
plane handlers (`crates/cc-switch-service/src/main.rs`) as executable Lean
functions over an explicit state, and prove properties about them.

Modules of the repository that are referenced but whose sources live outside
this tree (the SQLite `Database`, the device-level `settings` module, the
`gemini_mcp` file accessor, MCP validation) are modelled from the
specification; each such definition carries a `Modelled from the spec:` doc
comment.
-/

/-- Minimal model of `serde_json::Value`. -/
inductive Json where
  | null : Json
  | bool (b : Bool) : Json
  | num (n : Int) : Json
  | str (s : String) : Json
  | arr (xs : List Json) : Json
  | obj (kvs : List (String × Json)) : Json

/-- `Value::get(key)` on a JSON object: first entry with the given key. -/
def Json.getKey : Json → String → Option Json
  | .obj kvs, k => (kvs.find? (fun p => p.1 == k)).map (·.2)
  | _, _ => none

mutual

/-- Model of `serde_json::to_string` (serialization never fails for `Value`). -/
def Json.serialize : Json → String
  | .null => "null"
  | .bool b => if b then "true" else "false"
  | .num n => toString n
  | .str s => "\"" ++ s ++ "\""
  | .arr xs => "[" ++ Json.serializeList xs ++ "]"
  | .obj kvs => "\x7b" ++ Json.serializeObj kvs ++ "\x7d"

def Json.serializeList : List Json → String
  | [] => ""
  | [x] => Json.serialize x
  | x :: xs => Json.serialize x ++ "," ++ Json.serializeList xs

def Json.serializeObj : List (String × Json) → String
  | [] => ""
  | [(k, v)] => "\"" ++ k ++ "\":" ++ Json.serialize v
  | (k, v) :: xs => "\"" ++ k ++ "\":" ++ Json.serialize v ++ "," ++ Json.serializeObj xs

end

/-- `AppType` enum: the four supported client applications. -/
inductive AppType where
  | claude | codex | gemini | opencode
deriving DecidableEq, Repr

/-- Modelled from the spec: `AppType::from_str` accepts exactly the four
app identifiers `claude`, `codex`, `gemini`, `opencode`. -/
def AppType.fromStr (s : String) : Option AppType :=
  if s = "claude" then some .claude
  else if s = "codex" then some .codex
  else if s = "gemini" then some .gemini
  else if s = "opencode" then some .opencode
  else none

/-- Per-app proxy configuration (`AppProxyConfig`), the fields used by the
failover paths. -/
structure AppProxyConfig where
  enabled : Bool
  autoFailoverEnabled : Bool
deriving DecidableEq, Repr

/-- Provider row, the fields used by the failover paths. -/
structure Provider where
  id : String
  name : String
  settingsConfig : Json
  sortIndex : Int

/-- A failover queue row: provider id plus denormalized priority. -/
structure FailoverQueueItem where
  providerId : String
  sortIndex : Option Int
deriving DecidableEq, Repr

/-- Durable per-(app, provider) health row. -/
structure ProviderHealth where
  healthy : Bool
  lastError : Option String
deriving DecidableEq, Repr

/-- Association list lookup by string key (using `==` on keys, as the Rust
maps do). -/
def alistGet? {β : Type} (l : List (String × β)) (k : String) : Option β :=
  (l.find? (fun p => p.1 == k)).map (·.2)

/-- Association list update: replace any binding of `k` with `v`. -/
def alistPut {β : Type} (l : List (String × β)) (k : String) (v : β) :
    List (String × β) :=
  (k, v) :: l.filter (fun p => p.1 != k)

/-- Modelled from the spec: the relational store (`database/mod.rs` is not in
this tree). Keys of `providers` and `health` are `(appType, providerId)`
pairs encoded as `app ++ ":" ++ id`. -/
structure Database where
  proxyConfigs : List (String × AppProxyConfig)
  providers : List (String × Provider)
  currentProviders : List (String × String)
  liveBackups : List (String × String)
  failoverQueues : List (String × List FailoverQueueItem)
  health : List (String × ProviderHealth)

def provKey (appType providerId : String) : String :=
  appType ++ ":" ++ providerId

/-- Modelled from the spec: `get_proxy_config_for_app`; `none` stands for the
error case (no readable config row). -/
def Database.getProxyConfigForApp (db : Database) (appType : String) :
    Option AppProxyConfig :=
  alistGet? db.proxyConfigs appType

/-- Modelled from the spec: `get_provider_by_id(id, app)`. -/
def Database.getProviderById (db : Database) (providerId appType : String) :
    Option Provider :=
  alistGet? db.providers (provKey appType providerId)

/-- Modelled from the spec: `get_current_provider(app)`. -/
def Database.getCurrentProvider (db : Database) (appType : String) :
    Option String :=
  alistGet? db.currentProviders appType

/-- Modelled from the spec: `set_current_provider(app, id)`: clears the prior
current provider and sets the new one in one step, failing when `id` is not a
provider of `app`. -/
def Database.setCurrentProvider (db : Database) (appType providerId : String) :
    Except String Database :=
  match db.getProviderById providerId appType with
  | none => .error ("provider not found: " ++ providerId)
  | some _ =>
      .ok { db with
              currentProviders := alistPut db.currentProviders appType providerId }

/-- Modelled from the spec: `save_live_backup(app, json)`. -/
def Database.saveLiveBackup (db : Database) (appType backupJson : String) :
    Database :=
  { db with liveBackups := alistPut db.liveBackups appType backupJson }

/-- Modelled from the spec: `get_live_backup(app)`. -/
def Database.getLiveBackup (db : Database) (appType : String) : Option String :=
  alistGet? db.liveBackups appType

/-- Modelled from the spec: `get_failover_queue(app)`, ordered rows. -/
def Database.getFailoverQueue (db : Database) (appType : String) :
    List FailoverQueueItem :=
  (alistGet? db.failoverQueues appType).getD []

/-- Modelled from the spec: `add_to_failover_queue(app, id)` appends the
provider at the end of the queue with the next denormalized priority. -/
def Database.addToFailoverQueue (db : Database) (appType providerId : String) :
    Database :=
  let q := db.getFailoverQueue appType
  { db with
      failoverQueues :=
        alistPut db.failoverQueues appType
          (q ++ [⟨providerId, some (Int.ofNat q.length)⟩]) }

/-- Modelled from the spec: `update_provider_health(id, app, healthy, err)`. -/
def Database.updateProviderHealth (db : Database)
    (providerId appType : String) (healthy : Bool) (lastError : Option String) :
    Database :=
  { db with
      health := alistPut db.health (provKey appType providerId)
        ⟨healthy, lastError⟩ }

/-- Modelled from the spec: `update_proxy_config_for_app(cfg)` stores the
per-app proxy configuration row. -/
def Database.updateProxyConfigForApp (db : Database) (appType : String)
    (cfg : AppProxyConfig) : Database :=
  { db with proxyConfigs := alistPut db.proxyConfigs appType cfg }

/-- Outcomes of the two fallible external writes performed during a switch.
`settingsWriteOk` is the outcome of `settings::set_current_provider` (the
device-level on-disk settings mirror; modelled from the spec, `settings.rs`
is not in this tree); `backupWriteOk` is the outcome of the
`db.save_live_backup` write, whose result the code discards. -/
structure SwitchEnv where
  settingsWriteOk : Bool
  backupWriteOk : Bool
deriving DecidableEq, Repr

/-- Observable side effects of one `do_switch` run. `backupJson` is the
payload handed to `save_live_backup`, when that call happens at all. -/
structure SwitchTrace where
  setCurrentProviderInvoked : Bool
  settingsWriteInvoked : Bool
  backupJson : Option String
deriving DecidableEq, Repr

def SwitchTrace.empty : SwitchTrace :=
  ⟨false, false, none⟩

/-- The gemini live-backup envelope: only the `env` key of the provider's
`settings_config`, defaulting to an empty object. -/
def geminiEnvBackup (settingsConfig : Json) : Json :=
  match settingsConfig.getKey "env" with
  | some envVal => Json.obj [("env", envVal)]
  | none => Json.obj [("env", Json.obj [])]

/-- `FailoverSwitchManager::do_switch`: verify the app's proxy takeover is
enabled, update the database current provider (the spec-modelled
`set_current_provider` is inlined here: it fails when the id is not a
provider of the app, otherwise replaces the app's current provider), mirror
into device-level settings, then refresh the live backup from the new
provider's `settings_config` (full envelope for claude/codex, `env` key only
for gemini, skipped for other app types). -/
def doSwitch (env : SwitchEnv) (db : Database)
    (appType providerId _providerName : String) :
    Except String Bool × Database × SwitchTrace :=
  match db.getProxyConfigForApp appType with
  | none => (.ok false, db, .empty)
  | some config =>
    if !config.enabled then (.ok false, db, .empty)
    else
      match db.getProviderById providerId appType with
      | none =>
          -- `set_current_provider` fails when the id is not a provider of the app
          (.error ("provider not found: " ++ providerId), db, ⟨true, false, none⟩)
      | some _ =>
        let db1 : Database :=
          { db with
              currentProviders := alistPut db.currentProviders appType providerId }
        match AppType.fromStr appType with
        | none => (.error ("invalid app type: " ++ appType), db1, ⟨true, false, none⟩)
        | some _ =>
          if !env.settingsWriteOk then
            (.error "settings write failed", db1, ⟨true, true, none⟩)
          else
            match db1.getProviderById providerId appType with
            | none => (.ok true, db1, ⟨true, true, none⟩)
            | some provider =>
              if appType = "claude" ∨ appType = "codex" then
                let backupJson := Json.serialize provider.settingsConfig
                let db2 :=
                  if env.backupWriteOk then db1.saveLiveBackup appType backupJson
                  else db1
                (.ok true, db2, ⟨true, true, some backupJson⟩)
              else if appType = "gemini" then
                let backupJson := Json.serialize (geminiEnvBackup provider.settingsConfig)
                let db2 :=
                  if env.backupWriteOk then db1.saveLiveBackup appType backupJson
                  else db1
                (.ok true, db2, ⟨true, true, some backupJson⟩)
              else (.ok true, db1, ⟨true, true, none⟩)

/-- In-memory state of the `FailoverSwitchManager`: the `pending_switches`
key set plus the database handle. -/
structure ManagerState where
  pending : List String
  db : Database

/-- `FailoverSwitchManager::try_switch`: de-duplicate on the key
`"{app}:{provider_id}"`, run `do_switch`, then remove the key again on every
path. -/
def trySwitch (env : SwitchEnv) (st : ManagerState)
    (appType providerId providerName : String) :
    Except String Bool × ManagerState × SwitchTrace :=
  let switchKey := appType ++ ":" ++ providerId
  if switchKey ∈ st.pending then
    (.ok false, st, .empty)
  else
    let pending1 := switchKey :: st.pending
    let (result, db1, trace) := doSwitch env st.db appType providerId providerName
    let pending2 := pending1.erase switchKey
    (result, ⟨pending2, db1⟩, trace)

/-- Model of Rust `str::trim`: drop whitespace from both ends (character
level). -/
def strTrim (s : String) : String :=
  ⟨((s.data.dropWhile Char.isWhitespace).reverse.dropWhile Char.isWhitespace).reverse⟩

/-- Model of Rust `str::starts_with` (character level). -/
def strStartsWith (s pre : String) : Bool :=
  pre.data.isPrefixOf s.data

/-- Drop the first `n` characters of a string. -/
def strDrop (s : String) (n : Nat) : String :=
  ⟨s.data.drop n⟩

/-- `auth_ok` from the service: no configured token accepts everything;
otherwise accept when the trimmed value after a `Bearer ` Authorization
header equals the token, or the `?token=` query parameter equals it. -/
def authOk (authToken authHeader queryToken : Option String) : Bool :=
  match authToken with
  | none => true
  | some expected =>
      let bearer :=
        match authHeader with
        | some v =>
            if strStartsWith v "Bearer " then strTrim (strDrop v 7) else ""
        | none => ""
      let qt := queryToken.getD ""
      bearer == expected || qt == expected

/-- How `main` derives the configured token from
`CC_SWITCH_WEB_AUTH_TOKEN`: trimmed, and empty means unconfigured. -/
def authTokenFromEnv (raw : Option String) : Option String :=
  match raw with
  | none => none
  | some s => let t := strTrim s; if t = "" then none else some t

/-- HTTP status produced by the `/invoke` handler: 401 on auth failure, 400
for an empty command or a command-handler error, 200 otherwise. -/
def invokeHttpStatus (authToken authHeader queryToken : Option String)
    (command : String) (handlerResult : Except String Json) : Nat :=
  if !(authOk authToken authHeader queryToken) then 401
  else if strTrim command = "" then 400
  else
    match handlerResult with
    | .ok _ => 200
    | .error _ => 400

/-- A `provider-switched` style event published on the server broadcast
channel. -/
structure EventRec where
  event : String
  appType : String
  providerId : String
  source : String
deriving DecidableEq, Repr

/-- Modelled from the spec: `settings::get_effective_current_provider`
resolves the app's current provider (`settings.rs` is not in this tree). -/
def getEffectiveCurrentProvider (db : Database) (appType : String) :
    Option String :=
  db.getCurrentProvider appType

/-- Modelled from the spec: `ProxyService::switch_proxy_target` is the single
entry point for manual and automatic switches; it invokes the failover
manager's `try_switch` (`services/proxy.rs` is not in this tree). -/
def switchProxyTarget (env : SwitchEnv) (st : ManagerState)
    (appType providerId : String) : Except String Bool × ManagerState :=
  let (r, st1, _) := trySwitch env st appType providerId providerId
  (r, st1)

/-- The `set_auto_failover_enabled` command handler: when enabling with an
empty queue, seed the queue with the effective current provider (failing with
an error, hence HTTP 400, when there is none), persist the flag, then switch
to the queue head. -/
def handleSetAutoFailover (env : SwitchEnv) (st : ManagerState)
    (appType : String) (enabled : Bool) :
    Except String Json × ManagerState × List EventRec :=
  if strTrim appType = "" then (.error "missing appType", st, [])
  else
    let p1Res : Except String (String × ManagerState) :=
      if enabled then
        let queue := st.db.getFailoverQueue appType
        if queue.isEmpty then
          match AppType.fromStr appType with
          | none => .error ("invalid appType: " ++ appType)
          | some _ =>
            match getEffectiveCurrentProvider st.db appType with
            | none => .error ""
            | some currentId =>
              let db1 := st.db.addToFailoverQueue appType currentId
              match (db1.getFailoverQueue appType).head? with
              | none => .error ""
              | some item => .ok (item.providerId, ⟨st.pending, db1⟩)
        else
          match queue.head? with
          | none => .error ""
          | some item => .ok (item.providerId, st)
      else .ok ("", st)
    match p1Res with
    | .error e => (.error e, st, [])
    | .ok (p1, st1) =>
      match st1.db.getProxyConfigForApp appType with
      | none => (.error "config read failed", st1, [])
      | some cfg =>
        let db2 := st1.db.updateProxyConfigForApp appType
          { cfg with autoFailoverEnabled := enabled }
        let st2 : ManagerState := ⟨st1.pending, db2⟩
        if enabled then
          let (r, st3) := switchProxyTarget env st2 appType p1
          match r with
          | .error e => (.error e, st3, [])
          | .ok _ =>
              (.ok (.bool true), st3,
               [⟨"provider-switched", appType, p1, "failoverEnabled"⟩])
        else (.ok (.bool true), st2, [])

/-- Result of the `reset_circuit_breaker` command handler, with a trace of
whether a switch-back was attempted. -/
structure ResetOutcome where
  result : Except String Json
  st : ManagerState
  events : List EventRec
  switchBackAttempted : Bool

/-- The `reset_circuit_breaker` command handler: reset the durable health
row, then — only when the app's proxy is enabled, auto-failover is on and the
proxy is running — compare the failover-queue sort indexes of the reset
provider and the current provider, and switch back when the reset provider
ranks strictly higher. -/
def handleResetCircuitBreaker (env : SwitchEnv) (running : Bool)
    (st : ManagerState) (providerId appType : String) : ResetOutcome :=
  if strTrim providerId = "" ∨ strTrim appType = "" then
    ⟨.error "missing providerId/appType", st, [], false⟩
  else
    let db1 := st.db.updateProviderHealth providerId appType true none
    let st1 : ManagerState := ⟨st.pending, db1⟩
    let flags :=
      match db1.getProxyConfigForApp appType with
      | some cfg => (cfg.enabled, cfg.autoFailoverEnabled)
      | none => (false, false)
    if flags.1 && flags.2 && running then
      match db1.getCurrentProvider appType with
      | none => ⟨.ok (.bool true), st1, [], false⟩
      | some currentId =>
        let queue := db1.getFailoverQueue appType
        let restoredOrder :=
          (queue.find? (fun item => item.providerId == providerId)).bind
            (·.sortIndex)
        let currentOrder :=
          (queue.find? (fun item => item.providerId == currentId)).bind
            (·.sortIndex)
        match restoredOrder, currentOrder with
        | some restored, some current =>
          if restored < current then
            let (r, st2) := switchProxyTarget env st1 appType providerId
            ⟨(match r with | .error e => .error e | .ok _ => .ok (.bool true)),
             st2,
             (match r with
              | .error _ => []
              | .ok _ =>
                  [⟨"provider-switched", appType, providerId,
                    "circuitBreakerReset"⟩]),
             true⟩
          else ⟨.ok (.bool true), st1, [], false⟩
        | some _, none => ⟨.ok (.bool true), st1, [], false⟩
        | none, _ => ⟨.ok (.bool true), st1, [], false⟩
    else ⟨.ok (.bool true), st1, [], false⟩

/-- `Value::as_bool`. -/
def Json.asBool : Json → Option Bool
  | .bool b => some b
  | _ => none

/-- The per-app MCP server table (`McpConfig`): server id to entry JSON. -/
structure McpConfig where
  servers : List (String × Json)

/-- The slice of `MultiAppConfig` used by the Gemini sync path. -/
structure MultiAppConfig where
  mcpGemini : McpConfig

/-- External state of the Gemini sync path: whether `~/.gemini` exists and
the on-disk MCP servers map. -/
structure GeminiWorld where
  geminiDirExists : Bool
  servers : List (String × Json)

/-- One access to the Gemini configuration state. -/
inductive GeminiOp where
  | read
  | write (servers : List (String × Json))

/-- Modelled from the spec: the behaviors of the MCP validation helpers and
of the `gemini_mcp` file accessors, none of which are in this tree.
`extractServerSpec`/`validateServerSpec` are arbitrary fallible functions;
`readOk`/`writeOk` are the outcomes of `read_mcp_servers_map` and
`set_mcp_servers_map`. -/
structure GeminiEnv where
  extractServerSpec : Json → Except String Json
  validateServerSpec : Json → Except String Unit
  readOk : Bool
  writeOk : Bool

/-- `should_sync_gemini_mcp`: sync only when `~/.gemini` exists. -/
def shouldSyncGeminiMcp (w : GeminiWorld) : Bool :=
  w.geminiDirExists

/-- `collect_enabled_servers`: keep entries flagged `enabled: true` whose
spec extraction succeeds. -/
def collectEnabledServers (env : GeminiEnv) (cfg : McpConfig) :
    List (String × Json) :=
  cfg.servers.filterMap (fun p =>
    let enabled := ((p.2.getKey "enabled").bind Json.asBool).getD false
    if !enabled then none
    else
      match env.extractServerSpec p.2 with
      | .ok spec => some (p.1, spec)
      | .error _ => none)

/-- `set_mcp_servers_map` wrapper: records the attempted write and applies it
when it succeeds. -/
def setMcpServersMap (env : GeminiEnv) (w : GeminiWorld)
    (servers : List (String × Json)) :
    Except String Unit × GeminiWorld × List GeminiOp :=
  if env.writeOk then (.ok (), { w with servers := servers }, [.write servers])
  else (.error "write failed", w, [.write servers])

/-- `sync_enabled_to_gemini`. -/
def syncEnabledToGemini (env : GeminiEnv) (w : GeminiWorld)
    (config : MultiAppConfig) :
    Except String Unit × GeminiWorld × List GeminiOp :=
  if !(shouldSyncGeminiMcp w) then (.ok (), w, [])
  else
    let enabled := collectEnabledServers env config.mcpGemini
    setMcpServersMap env w enabled

/-- `sync_single_server_to_gemini`. -/
def syncSingleServerToGemini (env : GeminiEnv) (w : GeminiWorld)
    (_config : MultiAppConfig) (id : String) (serverEntry : Json) :
    Except String Unit × GeminiWorld × List GeminiOp :=
  if !(shouldSyncGeminiMcp w) then (.ok (), w, [])
  else
    match env.extractServerSpec serverEntry with
    | .error e => (.error e, w, [])
    | .ok spec =>
      match env.validateServerSpec spec with
      | .error e => (.error e, w, [])
      | .ok _ =>
        if !env.readOk then (.error "read failed", w, [.read])
        else
          let current := alistPut w.servers id spec
          let (r, w1, ops) := setMcpServersMap env w current
          (r, w1, .read :: ops)

/-- `remove_server_from_gemini`. -/
def removeServerFromGemini (env : GeminiEnv) (w : GeminiWorld) (id : String) :
    Except String Unit × GeminiWorld × List GeminiOp :=
  if !(shouldSyncGeminiMcp w) then (.ok (), w, [])
  else
    if !env.readOk then (.error "read failed", w, [.read])
    else
      let current := w.servers.filter (fun p => p.1 != id)
      let (r, w1, ops) := setMcpServersMap env w current
      (r, w1, .read :: ops)

/-- Program counter of one task running `try_switch` for a fixed
`(app, provider)` key, at the granularity of the code's lock sections:
the dedup check-and-insert, the `do_switch` body, the key removal. -/
inductive ThreadPC where
  | ready
  | switching
  | removing
  | finished (result : Bool)
deriving DecidableEq, Repr

/-- Shared state of the concurrent `try_switch` model: whether the key is in
`pending_switches`, the current provider, and every task's program
counter. -/
structure ConcState where
  pending : Bool
  current : Option String
  threads : List ThreadPC
deriving DecidableEq, Repr

/-- One atomic action of task `i`, targeting provider `targetId`: the dedup
check-and-insert under the write lock, the switch body (which sets the
current provider), or the removal of the key. -/
def concStep (targetId : String) (s : ConcState) (i : Nat) : ConcState :=
  match s.threads[i]? with
  | none => s
  | some pc =>
    match pc with
    | .ready =>
        if s.pending then
          { s with threads := s.threads.set i (.finished false) }
        else
          { s with pending := true, threads := s.threads.set i .switching }
    | .switching =>
        { s with current := some targetId, threads := s.threads.set i .removing }
    | .removing =>
        { s with pending := false, threads := s.threads.set i (.finished true) }
    | .finished _ => s

/-- Run a schedule (a list of task indices) from a state. -/
def concRun (targetId : String) (s : ConcState) (sched : List Nat) : ConcState :=
  sched.foldl (concStep targetId) s

/-- Initial state: no pending key, some prior current provider, `n` tasks all
about to call `try_switch`. -/
def concInit (n : Nat) (c0 : Option String) : ConcState :=
  ⟨false, c0, List.replicate n .ready⟩

/-- A task is inside the critical window: it inserted the key and has not yet
removed it. -/
def ThreadPC.inCritical : ThreadPC → Bool
  | .switching => true
  | .removing => true
  | _ => false

/-- A task has already executed the switch body. -/
def ThreadPC.passedSwitch : ThreadPC → Bool
  | .removing => true
  | .finished true => true
  | _ => false

/-- Number of tasks inside the critical window. -/
def countCrit (ts : List ThreadPC) : Nat :=
  ts.countP ThreadPC.inCritical

/-- Inductive invariant of the concurrent `try_switch` model: the key is
pending exactly while one task is in the critical window, never more than one
task is there, and once any task has run the switch body the current provider
is the target. -/
def ConcInv (targetId : String) (s : ConcState) : Prop :=
  (s.pending = true ↔ countCrit s.threads = 1) ∧
  countCrit s.threads ≤ 1 ∧
  ((∃ pc ∈ s.threads, pc.passedSwitch = true) → s.current = some targetId)

/-- A provider settings envelope with an `env` key and one further key. -/
def sampleSettings : Json :=
  Json.obj [("env", Json.obj [("GEMINI_API_KEY", Json.str "k")]),
            ("apiKey", Json.str "secret")]

/-- Sample database: claude proxy takeover enabled, provider `p1` present,
current provider `p0`. -/
def claudeDb : Database :=
  { proxyConfigs := [("claude", ⟨true, true⟩)]
    providers := [("claude:p1", ⟨"p1", "P1", sampleSettings, 0⟩)]
    currentProviders := [("claude", "p0")]
    liveBackups := []
    failoverQueues := []
    health := [] }

/-- Sample database with claude proxy takeover disabled. -/
def disabledDb : Database :=
  { proxyConfigs := [("claude", ⟨false, true⟩)]
    providers := [("claude:p1", ⟨"p1", "P1", sampleSettings, 0⟩)]
    currentProviders := [("claude", "p0")]
    liveBackups := []
    failoverQueues := []
    health := [] }

/-- Sample database: gemini proxy takeover enabled, provider `g1` present. -/
def geminiDb : Database :=
  { proxyConfigs := [("gemini", ⟨true, true⟩)]
    providers := [("gemini:g1", ⟨"g1", "G1", sampleSettings, 0⟩)]
    currentProviders := [("gemini", "g0")]
    liveBackups := []
    failoverQueues := []
    health := [] }

/-- Both external writes succeed. -/
def okEnv : SwitchEnv := ⟨true, true⟩

/-- The device-level settings mirror fails. -/
def failSettingsEnv : SwitchEnv := ⟨false, true⟩

/-- The live-backup database write fails. -/
def failBackupEnv : SwitchEnv := ⟨true, false⟩

/-- Sample database for the circuit-breaker reset scenario: claude proxy and
auto-failover enabled, providers P1 (sort 0) and P2 (sort 1) both queued,
current provider P2. -/
def resetDb : Database :=
  { proxyConfigs := [("claude", ⟨true, true⟩)]
    providers := [("claude:P1", ⟨"P1", "Primary", sampleSettings, 0⟩),
                  ("claude:P2", ⟨"P2", "Secondary", sampleSettings, 1⟩)]
    currentProviders := [("claude", "P2")]
    liveBackups := []
    failoverQueues := [("claude", [⟨"P1", some 0⟩, ⟨"P2", some 1⟩])]
    health := [] }

/-- Sample database with a current provider but an empty failover queue. -/
def emptyQueueDb : Database :=
  { proxyConfigs := [("claude", ⟨true, false⟩)]
    providers := [("claude:p1", ⟨"p1", "P1", sampleSettings, 0⟩)]
    currentProviders := [("claude", "p1")]
    liveBackups := []
    failoverQueues := []
    health := [] }

/-- Sample database with neither a current provider nor a failover queue. -/
def noCurrentDb : Database :=
  { proxyConfigs := [("claude", ⟨true, false⟩)]
    providers := [("claude:p1", ⟨"p1", "P1", sampleSettings, 0⟩)]
    currentProviders := []
    liveBackups := []
    failoverQueues := []
    health := [] }


theorem countP_set_balance {α : Type} (p : α → Bool) :
    ∀ (ts : List α) (i : Nat) (pc x : α), ts[i]? = some pc →
      (ts.set i x).countP p + (if p pc then 1 else 0)
        = ts.countP p + (if p x then 1 else 0)
  | [], i, pc, x, h => by simp at h
  | a :: ts, 0, pc, x, h => by
      simp only [List.getElem?_cons_zero, List.getElem?_cons_succ] at h
      cases h
      simp only [List.set, List.countP_cons]
      omega
  | a :: ts, i + 1, pc, x, h => by
      simp only [List.getElem?_cons_zero, List.getElem?_cons_succ] at h
      have ih := countP_set_balance p ts i pc x h
      simp only [List.set, List.countP_cons]
      omega

theorem concStep_get_none {t : String} {s : ConcState} {i : Nat}
    (h : s.threads[i]? = none) : concStep t s i = s := by
  simp [concStep, h]

theorem concStep_ready_busy {t : String} {s : ConcState} {i : Nat}
    (h : s.threads[i]? = some .ready) (hp : s.pending = true) :
    concStep t s i = { s with threads := s.threads.set i (.finished false) } := by
  simp [concStep, h, hp]

theorem concStep_ready_fresh {t : String} {s : ConcState} {i : Nat}
    (h : s.threads[i]? = some .ready) (hp : s.pending = false) :
    concStep t s i =
      { s with pending := true, threads := s.threads.set i .switching } := by
  simp [concStep, h, hp]

theorem concStep_switching {t : String} {s : ConcState} {i : Nat}
    (h : s.threads[i]? = some .switching) :
    concStep t s i =
      { s with current := some t, threads := s.threads.set i .removing } := by
  simp [concStep, h]

theorem concStep_removing {t : String} {s : ConcState} {i : Nat}
    (h : s.threads[i]? = some .removing) :
    concStep t s i =
      { s with pending := false, threads := s.threads.set i (.finished true) } := by
  simp [concStep, h]

theorem concStep_finished {t : String} {s : ConcState} {i : Nat} {r : Bool}
    (h : s.threads[i]? = some (.finished r)) : concStep t s i = s := by
  simp [concStep, h]

theorem concInv_init (t : String) (n : Nat) (c0 : Option String) :
    ConcInv t (concInit n c0) := by
  have h0 : (List.replicate n ThreadPC.ready).countP ThreadPC.inCritical = 0 :=
    List.countP_eq_zero.mpr
      (fun a ha => by rw [List.eq_of_mem_replicate ha]; simp [ThreadPC.inCritical])
  refine ⟨?_, ?_, ?_⟩
  · show (false = true) ↔ countCrit (List.replicate n ThreadPC.ready) = 1
    simp [countCrit, h0]
  · show countCrit (List.replicate n ThreadPC.ready) ≤ 1
    simp [countCrit, h0]
  · rintro ⟨pc, hmem, hpassed⟩
    rw [List.eq_of_mem_replicate hmem] at hpassed
    simp [ThreadPC.passedSwitch] at hpassed

theorem concInv_step (t : String) (s : ConcState) (i : Nat)
    (hInv : ConcInv t s) : ConcInv t (concStep t s i) := by
  obtain ⟨hp, hle, hcur⟩ := hInv
  cases hget : s.threads[i]? with
  | none => rw [concStep_get_none hget]; exact ⟨hp, hle, hcur⟩
  | some pc =>
    have hmem : pc ∈ s.threads := List.getElem?_mem hget
    cases pc with
    | ready =>
      cases hpend : s.pending with
      | true =>
        rw [concStep_ready_busy hget hpend]
        have h0 : countCrit (s.threads.set i (ThreadPC.finished false))
            = countCrit s.threads := by
          have hbal := countP_set_balance ThreadPC.inCritical s.threads i
            ThreadPC.ready (ThreadPC.finished false) hget
          simp only [countCrit]
          simp [ThreadPC.inCritical] at hbal
          omega
        refine ⟨?_, ?_, ?_⟩
        · show s.pending = true ↔
            countCrit (s.threads.set i (ThreadPC.finished false)) = 1
          rw [h0]; exact hp
        · show countCrit (s.threads.set i (ThreadPC.finished false)) ≤ 1
          rw [h0]; exact hle
        · rintro ⟨pc', hmem', hpassed'⟩
          rcases List.mem_or_eq_of_mem_set hmem' with h | h
          · exact hcur ⟨pc', h, hpassed'⟩
          · subst h; simp [ThreadPC.passedSwitch] at hpassed'
      | false =>
        rw [concStep_ready_fresh hget hpend]
        have hzero : countCrit s.threads = 0 := by
          have hne : ¬(countCrit s.threads = 1) := by
            intro h1
            rw [hpend] at hp
            exact Bool.false_ne_true (hp.mpr h1)
          omega
        have h1 : countCrit (s.threads.set i ThreadPC.switching)
            = countCrit s.threads + 1 := by
          have hbal := countP_set_balance ThreadPC.inCritical s.threads i
            ThreadPC.ready ThreadPC.switching hget
          simp only [countCrit]
          simp [ThreadPC.inCritical] at hbal
          omega
        refine ⟨?_, ?_, ?_⟩
        · show (true = true) ↔ countCrit (s.threads.set i ThreadPC.switching) = 1
          rw [h1, hzero]; simp
        · show countCrit (s.threads.set i ThreadPC.switching) ≤ 1
          rw [h1, hzero]
        · rintro ⟨pc', hmem', hpassed'⟩
          rcases List.mem_or_eq_of_mem_set hmem' with h | h
          · exact hcur ⟨pc', h, hpassed'⟩
          · subst h; simp [ThreadPC.passedSwitch] at hpassed'
    | switching =>
      rw [concStep_switching hget]
      have hone : countCrit s.threads = 1 := by
        have hposit : 0 < s.threads.countP ThreadPC.inCritical :=
          List.countP_pos_iff.mpr ⟨ThreadPC.switching, hmem, rfl⟩
        simp only [countCrit] at hle ⊢
        omega
      have h0 : countCrit (s.threads.set i ThreadPC.removing)
          = countCrit s.threads := by
        have hbal := countP_set_balance ThreadPC.inCritical s.threads i
          ThreadPC.switching ThreadPC.removing hget
        simp only [countCrit]
        simp [ThreadPC.inCritical] at hbal
        omega
      refine ⟨?_, ?_, ?_⟩
      · show s.pending = true ↔
          countCrit (s.threads.set i ThreadPC.removing) = 1
        rw [h0]; exact hp
      · show countCrit (s.threads.set i ThreadPC.removing) ≤ 1
        rw [h0]; exact hle
      · intro _; rfl
    | removing =>
      rw [concStep_removing hget]
      have hone : countCrit s.threads = 1 := by
        have hposit : 0 < s.threads.countP ThreadPC.inCritical :=
          List.countP_pos_iff.mpr ⟨ThreadPC.removing, hmem, rfl⟩
        simp only [countCrit] at hle ⊢
        omega
      have h0 : countCrit (s.threads.set i (ThreadPC.finished true)) = 0 := by
        have hbal := countP_set_balance ThreadPC.inCritical s.threads i
          ThreadPC.removing (ThreadPC.finished true) hget
        simp only [countCrit] at hone ⊢
        simp [ThreadPC.inCritical] at hbal
        omega
      have hcurval : s.current = some t := hcur ⟨ThreadPC.removing, hmem, rfl⟩
      refine ⟨?_, ?_, ?_⟩
      · show (false = true) ↔
          countCrit (s.threads.set i (ThreadPC.finished true)) = 1
        rw [h0]; simp
      · show countCrit (s.threads.set i (ThreadPC.finished true)) ≤ 1
        rw [h0]; omega
      · intro _; exact hcurval
    | finished r =>
      rw [concStep_finished hget]; exact ⟨hp, hle, hcur⟩

theorem concInv_run (t : String) (sched : List Nat) :
    ∀ (s : ConcState), ConcInv t s → ConcInv t (concRun t s sched) := by
  induction sched with
  | nil => intro s h; exact h
  | cons i rest ih =>
      intro s h
      exact ih (concStep t s i) (concInv_step t s i h)

theorem alistGet?_put_self {β : Type} (l : List (String × β)) (k : String)
    (v : β) : alistGet? (alistPut l k v) k = some v := by
  simp [alistGet?, alistPut, List.find?]

/-- C1: if the key `"{app}:{provider_id}"` is already in the in-memory
`pending_switches` set, `try_switch` returns `false` and performs no switch:
the manager state is unchanged and the trace is empty, so
`set_current_provider` was not called and no persistent state was touched. -/
theorem try_switch_pending_key_dedup (env : SwitchEnv) (st : ManagerState)
    (appType providerId providerName : String)
    (h : (appType ++ ":" ++ providerId) ∈ st.pending) :
    trySwitch env st appType providerId providerName
      = (.ok false, st, SwitchTrace.empty) := by
  simp [trySwitch, h]

theorem try_switch_pending_key_dedup_witness :
    trySwitch okEnv ⟨["claude:p1"], claudeDb⟩ "claude" "p1" "Primary"
      = (.ok false, ⟨["claude:p1"], claudeDb⟩, SwitchTrace.empty) :=
  try_switch_pending_key_dedup okEnv ⟨["claude:p1"], claudeDb⟩
    "claude" "p1" "Primary" (by decide)

/-- C2: when the app's `AppProxyConfig.enabled` is `false`, `try_switch`
returns `false`, the database is untouched and `set_current_provider` is
never invoked. -/
theorem try_switch_disabled_app_noop (env : SwitchEnv) (st : ManagerState)
    (appType providerId providerName : String) (cfg : AppProxyConfig)
    (hcfg : st.db.getProxyConfigForApp appType = some cfg)
    (hdis : cfg.enabled = false) :
    (trySwitch env st appType providerId providerName).1 = .ok false ∧
    ((trySwitch env st appType providerId providerName).2.1).db = st.db ∧
    ((trySwitch env st appType providerId providerName).2.2).setCurrentProviderInvoked
      = false := by
  by_cases hmem : (appType ++ ":" ++ providerId) ∈ st.pending
  · simp [trySwitch, hmem, SwitchTrace.empty]
  · simp [trySwitch, hmem, doSwitch, hcfg, hdis, SwitchTrace.empty]

theorem try_switch_disabled_app_noop_witness :
    (trySwitch okEnv ⟨[], disabledDb⟩ "claude" "p1" "Primary").1 = .ok false ∧
    ((trySwitch okEnv ⟨[], disabledDb⟩ "claude" "p1" "Primary").2.1).db
      = disabledDb ∧
    ((trySwitch okEnv ⟨[], disabledDb⟩ "claude" "p1" "Primary").2.2).setCurrentProviderInvoked
      = false :=
  try_switch_disabled_app_noop okEnv ⟨[], disabledDb⟩ "claude" "p1" "Primary"
    ⟨false, true⟩ (by decide) rfl

/-- C9: a `try_switch` call that was not deduplicated removes its key from
`pending_switches` before returning, on every path (including when
`do_switch` fails with an error): the pending set ends exactly where it
started, so the key is absent afterwards. -/
theorem try_switch_always_removes_key (env : SwitchEnv) (st : ManagerState)
    (appType providerId providerName : String)
    (h : (appType ++ ":" ++ providerId) ∉ st.pending) :
    ((trySwitch env st appType providerId providerName).2.1).pending
        = st.pending ∧
    (appType ++ ":" ++ providerId) ∉
      ((trySwitch env st appType providerId providerName).2.1).pending := by
  have hpend : ((trySwitch env st appType providerId providerName).2.1).pending
      = st.pending := by
    simp [trySwitch, h, List.erase_cons_head]
  exact ⟨hpend, by rw [hpend]; exact h⟩

theorem try_switch_always_removes_key_witness :
    ((trySwitch failSettingsEnv ⟨[], claudeDb⟩ "claude" "p1" "Primary").2.1).pending
        = ([] : List String) ∧
    ("claude" ++ ":" ++ "p1") ∉
      ((trySwitch failSettingsEnv ⟨[], claudeDb⟩ "claude" "p1" "Primary").2.1).pending :=
  try_switch_always_removes_key failSettingsEnv ⟨[], claudeDb⟩
    "claude" "p1" "Primary" (by decide)

/-- C3 (counterexample): with the claude app enabled and provider `p1`
present, a failure of the on-disk settings mirror makes `try_switch` return
an error — not `Ok(true)` as the claim states — even though the database
switch has already happened and is kept. -/
theorem try_switch_mirror_failure_returns_error :
    (trySwitch failSettingsEnv ⟨[], claudeDb⟩ "claude" "p1" "Primary").1
        = .error "settings write failed" ∧
    (trySwitch failSettingsEnv ⟨[], claudeDb⟩ "claude" "p1" "Primary").1
        ≠ .ok true ∧
    ((trySwitch failSettingsEnv ⟨[], claudeDb⟩ "claude" "p1" "Primary").2.1).db.getCurrentProvider
        "claude" = some "p1" := by
  have h1 : (trySwitch failSettingsEnv ⟨[], claudeDb⟩ "claude" "p1" "Primary").1
      = .error "settings write failed" := rfl
  exact ⟨h1, by rw [h1]; simp, rfl⟩

/-- C3 (amended): once `try_switch` has updated the database's current
provider, a failure of the device-level settings mirror
(`settings::set_current_provider`) is propagated: `try_switch` returns that
error instead of `Ok(true)`, but the database switch is not rolled back.
A failure of the live-backup write (`save_live_backup`), by contrast, is
swallowed and `try_switch` still returns `Ok(true)`. -/
theorem try_switch_mirror_failure_behavior (env : SwitchEnv)
    (st : ManagerState) (appType providerId providerName : String)
    (cfg : AppProxyConfig) (p : Provider) (a : AppType)
    (hmem : (appType ++ ":" ++ providerId) ∉ st.pending)
    (hcfg : st.db.getProxyConfigForApp appType = some cfg)
    (hen : cfg.enabled = true)
    (hprov : st.db.getProviderById providerId appType = some p)
    (hfrom : AppType.fromStr appType = some a) :
    (env.settingsWriteOk = false →
       (trySwitch env st appType providerId providerName).1
           = .error "settings write failed" ∧
       ((trySwitch env st appType providerId providerName).2.1).db.getCurrentProvider
           appType = some providerId) ∧
    (env.settingsWriteOk = true →
       (trySwitch env st appType providerId providerName).1 = .ok true ∧
       ((trySwitch env st appType providerId providerName).2.1).db.getCurrentProvider
           appType = some providerId) := by
  have hprov2 : alistGet? st.db.providers (provKey appType providerId) = some p := by
    simpa [Database.getProviderById] using hprov
  constructor
  · intro hsw
    constructor <;>
      simp [trySwitch, hmem, doSwitch, hcfg, hen, hsw, hfrom,
        Database.setCurrentProvider, Database.getProviderById,
        Database.getCurrentProvider, hprov2, alistGet?_put_self]
  · intro hsw
    constructor <;>
    · simp [trySwitch, hmem, doSwitch, hcfg, hen, hsw, hfrom,
        Database.setCurrentProvider, Database.getProviderById, hprov2]
      repeat' split
      all_goals
        simp [Database.getCurrentProvider, Database.saveLiveBackup,
          alistGet?_put_self]

theorem try_switch_mirror_failure_behavior_witness :
    ((trySwitch failSettingsEnv ⟨[], claudeDb⟩ "claude" "p1" "Primary").1
        = .error "settings write failed" ∧
     ((trySwitch failSettingsEnv ⟨[], claudeDb⟩ "claude" "p1" "Primary").2.1).db.getCurrentProvider
        "claude" = some "p1") ∧
    ((trySwitch failBackupEnv ⟨[], claudeDb⟩ "claude" "p1" "Primary").1
        = .ok true ∧
     ((trySwitch failBackupEnv ⟨[], claudeDb⟩ "claude" "p1" "Primary").2.1).db.getCurrentProvider
        "claude" = some "p1") := by
  have h1 := try_switch_mirror_failure_behavior failSettingsEnv ⟨[], claudeDb⟩
    "claude" "p1" "Primary" ⟨true, true⟩ ⟨"p1", "P1", sampleSettings, 0⟩
    AppType.claude (List.not_mem_nil _) rfl rfl rfl rfl
  have h2 := try_switch_mirror_failure_behavior failBackupEnv ⟨[], claudeDb⟩
    "claude" "p1" "Primary" ⟨true, true⟩ ⟨"p1", "P1", sampleSettings, 0⟩
    AppType.claude (List.not_mem_nil _) rfl rfl rfl rfl
  exact ⟨h1.1 rfl, h2.2 rfl⟩

/-- C4 (counterexample): for a gemini provider whose `settings_config` holds
an `env` key and a further `apiKey` key, a successful `try_switch` refreshes
the live backup with only the `env` envelope — not the full
`settings_config` envelope the claim describes. -/
theorem gemini_live_backup_not_full_envelope :
    ((trySwitch okEnv ⟨[], geminiDb⟩ "gemini" "g1" "G1").2.2).backupJson
        = some (Json.serialize
            (Json.obj [("env", Json.obj [("GEMINI_API_KEY", Json.str "k")])])) ∧
    Json.serialize (Json.obj [("env", Json.obj [("GEMINI_API_KEY", Json.str "k")])])
        ≠ Json.serialize sampleSettings ∧
    (trySwitch okEnv ⟨[], geminiDb⟩ "gemini" "g1" "G1").1 = .ok true := by
  refine ⟨rfl, by decide, rfl⟩

/-- C4 (amended): on a successful switch where the new provider exists, the
per-app live backup payload is: the full serialized `settings_config` for
claude and codex; only the `env` field (wrapped as an `env` object) for
gemini; and no backup update at all for any other app type such as opencode.
When the backup write succeeds the payload is stored in `live_backups`. -/
theorem live_backup_refresh_per_app (env : SwitchEnv) (st : ManagerState)
    (appType providerId providerName : String) (cfg : AppProxyConfig)
    (p : Provider)
    (hmem : (appType ++ ":" ++ providerId) ∉ st.pending)
    (hcfg : st.db.getProxyConfigForApp appType = some cfg)
    (hen : cfg.enabled = true)
    (hprov : st.db.getProviderById providerId appType = some p)
    (hsw : env.settingsWriteOk = true)
    (hbk : env.backupWriteOk = true) :
    (appType = "claude" ∨ appType = "codex" →
       ((trySwitch env st appType providerId providerName).2.2).backupJson
           = some (Json.serialize p.settingsConfig) ∧
       ((trySwitch env st appType providerId providerName).2.1).db.getLiveBackup
           appType = some (Json.serialize p.settingsConfig)) ∧
    (appType = "gemini" →
       ((trySwitch env st appType providerId providerName).2.2).backupJson
           = some (Json.serialize (geminiEnvBackup p.settingsConfig)) ∧
       ((trySwitch env st appType providerId providerName).2.1).db.getLiveBackup
           appType = some (Json.serialize (geminiEnvBackup p.settingsConfig))) ∧
    (appType = "opencode" →
       ((trySwitch env st appType providerId providerName).2.2).backupJson
           = none ∧
       ((trySwitch env st appType providerId providerName).2.1).db.liveBackups
           = st.db.liveBackups) := by
  refine ⟨?_, ?_, ?_⟩
  · rintro (h | h) <;> subst h <;>
    · have hmem2 := hmem
      have hprov2 := hprov
      simp only [Database.getProviderById, provKey] at hprov2
      simp at hmem2 hprov2
      constructor <;>
        simp [trySwitch, hmem2, doSwitch, hcfg, hen, hsw, hbk, AppType.fromStr,
          Database.setCurrentProvider, Database.getProviderById, provKey,
          hprov2, Database.saveLiveBackup, Database.getLiveBackup,
          alistGet?_put_self]
  · intro h
    subst h
    have hmem2 := hmem
    have hprov2 := hprov
    simp only [Database.getProviderById, provKey] at hprov2
    simp at hmem2 hprov2
    constructor <;>
      simp [trySwitch, hmem2, doSwitch, hcfg, hen, hsw, hbk, AppType.fromStr,
        Database.setCurrentProvider, Database.getProviderById, provKey,
        hprov2, Database.saveLiveBackup, Database.getLiveBackup,
        alistGet?_put_self]
  · intro h
    subst h
    have hmem2 := hmem
    have hprov2 := hprov
    simp only [Database.getProviderById, provKey] at hprov2
    simp at hmem2 hprov2
    constructor <;>
      simp [trySwitch, hmem2, doSwitch, hcfg, hen, hsw, hbk, AppType.fromStr,
        Database.setCurrentProvider, Database.getProviderById, provKey,
        hprov2, alistGet?_put_self]

theorem live_backup_refresh_per_app_witness :
    ((trySwitch okEnv ⟨[], claudeDb⟩ "claude" "p1" "Primary").2.2).backupJson
        = some (Json.serialize sampleSettings) ∧
    ((trySwitch okEnv ⟨[], claudeDb⟩ "claude" "p1" "Primary").2.1).db.getLiveBackup
        "claude" = some (Json.serialize sampleSettings) := by
  have h := live_backup_refresh_per_app okEnv ⟨[], claudeDb⟩
    "claude" "p1" "Primary" ⟨true, true⟩ ⟨"p1", "P1", sampleSettings, 0⟩
    (List.not_mem_nil _) rfl rfl rfl rfl rfl
  exact h.1 (Or.inl rfl)

theorem doSwitch_preserves_tables (env : SwitchEnv) (db : Database)
    (appType providerId providerName : String) :
    ((doSwitch env db appType providerId providerName).2.1).failoverQueues
        = db.failoverQueues ∧
    ((doSwitch env db appType providerId providerName).2.1).proxyConfigs
        = db.proxyConfigs ∧
    ((doSwitch env db appType providerId providerName).2.1).providers
        = db.providers := by
  unfold doSwitch
  repeat' split
  all_goals first
    | exact ⟨rfl, rfl, rfl⟩
    | ((try simp only []); split <;> exact ⟨rfl, rfl, rfl⟩)

theorem trySwitch_preserves_tables (env : SwitchEnv) (st : ManagerState)
    (appType providerId providerName : String) :
    ((trySwitch env st appType providerId providerName).2.1).db.failoverQueues
        = st.db.failoverQueues ∧
    ((trySwitch env st appType providerId providerName).2.1).db.proxyConfigs
        = st.db.proxyConfigs ∧
    ((trySwitch env st appType providerId providerName).2.1).db.providers
        = st.db.providers := by
  by_cases hmem : (appType ++ ":" ++ providerId) ∈ st.pending
  · simp [trySwitch, hmem]
  · have h := doSwitch_preserves_tables env st.db appType providerId providerName
    simpa [trySwitch, hmem] using h

/-- C5 (counterexample): auto-failover is enabled for claude and the reset
provider P1 outranks the current provider P2 (queue sort 0 < 1), yet with
the proxy service not running `reset_circuit_breaker` performs no
switch-back: the current provider stays P2 and no event is emitted. -/
theorem reset_breaker_no_switch_when_not_running :
    (handleResetCircuitBreaker okEnv false ⟨[], resetDb⟩ "P1" "claude").switchBackAttempted
        = false ∧
    ((handleResetCircuitBreaker okEnv false ⟨[], resetDb⟩ "P1" "claude").st).db.getCurrentProvider
        "claude" = some "P2" ∧
    (handleResetCircuitBreaker okEnv false ⟨[], resetDb⟩ "P1" "claude").events
        = [] := by
  refine ⟨by decide, by decide, by decide⟩

/-- C5 (amended): after `reset_circuit_breaker(app, id)` resets the durable
health row, a switch-back to `id` is attempted precisely when all of the
following hold: the app's proxy takeover is enabled, auto-failover is
enabled, the proxy service is running, the app has a current provider, both
`id` and the current provider carry sort indexes in the app's failover
queue, and the queue sort index of `id` is strictly below that of the
current provider. Otherwise no switch-back occurs. -/
theorem reset_breaker_switch_back_iff (env : SwitchEnv) (running : Bool)
    (st : ManagerState) (providerId appType : String)
    (hpid : strTrim providerId ≠ "") (happ : strTrim appType ≠ "") :
    (handleResetCircuitBreaker env running st providerId appType).switchBackAttempted
        = true ↔
      (∃ cfg, st.db.getProxyConfigForApp appType = some cfg ∧
         cfg.enabled = true ∧ cfg.autoFailoverEnabled = true) ∧
      running = true ∧
      (∃ currentId, st.db.getCurrentProvider appType = some currentId ∧
        ∃ ri ci,
          ((st.db.getFailoverQueue appType).find?
              (fun item => item.providerId == providerId)).bind
            (fun item => item.sortIndex) = some ri ∧
          ((st.db.getFailoverQueue appType).find?
              (fun item => item.providerId == currentId)).bind
            (fun item => item.sortIndex) = some ci ∧
          ri < ci) := by
  have hcond : ¬(strTrim providerId = "" ∨ strTrim appType = "") :=
    not_or.mpr ⟨hpid, happ⟩
  simp only [handleResetCircuitBreaker, if_neg hcond,
    Database.updateProviderHealth, Database.getProxyConfigForApp,
    Database.getCurrentProvider, Database.getFailoverQueue]
  cases hcfg : alistGet? st.db.proxyConfigs appType with
  | none => simp
  | some cfg =>
    cases hen : cfg.enabled with
    | false => simp [hen]
    | true =>
      cases hau : cfg.autoFailoverEnabled with
      | false => simp [hen, hau]
      | true =>
        cases running with
        | false => simp [hen, hau]
        | true =>
          cases hcur : alistGet? st.db.currentProviders appType with
          | none => simp [hen, hau]
          | some currentId =>
            cases hro : (((alistGet? st.db.failoverQueues appType).getD
                []).find? (fun item => item.providerId == providerId)).bind
                (fun item => item.sortIndex) with
            | none => simp [hen, hau, hro]
            | some ri =>
              cases hco : (((alistGet? st.db.failoverQueues appType).getD
                  []).find? (fun item => item.providerId == currentId)).bind
                  (fun item => item.sortIndex) with
              | none => simp [hen, hau, hro, hco]
              | some ci =>
                by_cases hlt : ri < ci
                · simp [hen, hau, hro, hco, hlt]
                · simp [hen, hau, hro, hco, hlt]

theorem reset_breaker_switch_back_iff_witness :
    (handleResetCircuitBreaker okEnv true ⟨[], resetDb⟩ "P1" "claude").switchBackAttempted
        = true := by
  have h := reset_breaker_switch_back_iff okEnv true ⟨[], resetDb⟩ "P1" "claude"
    (by decide) (by decide)
  exact h.mpr ⟨⟨⟨true, true⟩, by decide, rfl, rfl⟩, rfl,
    ⟨"P2", by decide, ⟨0, 1, by decide, by decide, by decide⟩⟩⟩

theorem trySwitch_db_failoverQueues (env : SwitchEnv) (st : ManagerState)
    (a p n : String) :
    ((trySwitch env st a p n).2.1).db.failoverQueues = st.db.failoverQueues :=
  (trySwitch_preserves_tables env st a p n).1

/-- C6: for a `set_auto_failover_enabled(app, enabled=true)` request with an
empty failover queue: when the app has no current provider the handler fails
with an error, which `/invoke` maps to HTTP 400 (BadRequest); when the app
has a current provider, the queue is seeded with exactly that provider
before enabling. -/
theorem set_auto_failover_seed_or_badrequest (env : SwitchEnv)
    (st : ManagerState) (appType : String) (a : AppType)
    (happ : strTrim appType ≠ "")
    (hfrom : AppType.fromStr appType = some a)
    (hq : st.db.getFailoverQueue appType = []) :
    (st.db.getCurrentProvider appType = none →
        handleSetAutoFailover env st appType true = (.error "", st, []) ∧
        (∀ tok hdr q, authOk tok hdr q = true →
            invokeHttpStatus tok hdr q "set_auto_failover_enabled" (.error "")
              = 400)) ∧
    (∀ c, st.db.getCurrentProvider appType = some c →
        ((handleSetAutoFailover env st appType true).2.1).db.getFailoverQueue
            appType = [⟨c, some 0⟩]) := by
  constructor
  · intro hcur
    constructor
    · simp [handleSetAutoFailover, happ, hq, hfrom,
        getEffectiveCurrentProvider, hcur]
    · intro tok hdr q hauth
      simp [invokeHttpStatus, hauth,
        show strTrim "set_auto_failover_enabled" ≠ "" from by decide]
  · intro c hcur
    have hq2 : (alistGet? st.db.failoverQueues appType).getD [] = [] := by
      simpa [Database.getFailoverQueue] using hq
    simp [handleSetAutoFailover, happ, hq2, hfrom, getEffectiveCurrentProvider,
      hcur, switchProxyTarget, trySwitch_db_failoverQueues,
      Database.getProxyConfigForApp, Database.updateProxyConfigForApp,
      Database.addToFailoverQueue, Database.getFailoverQueue, alistGet?_put_self]
    repeat' split
    all_goals
      simp_all [switchProxyTarget, trySwitch_db_failoverQueues,
        Database.getProxyConfigForApp, Database.updateProxyConfigForApp,
        Database.addToFailoverQueue, Database.getFailoverQueue,
        alistGet?_put_self, hq2]

theorem set_auto_failover_seed_or_badrequest_witness :
    handleSetAutoFailover okEnv ⟨[], noCurrentDb⟩ "claude" true
        = (.error "", ⟨[], noCurrentDb⟩, []) ∧
    invokeHttpStatus none none none "set_auto_failover_enabled" (.error "")
        = 400 ∧
    ((handleSetAutoFailover okEnv ⟨[], emptyQueueDb⟩ "claude" true).2.1).db.getFailoverQueue
        "claude" = [⟨"p1", some 0⟩] := by
  have h1 := set_auto_failover_seed_or_badrequest okEnv ⟨[], noCurrentDb⟩
    "claude" AppType.claude (by decide) rfl (by decide)
  have h2 := set_auto_failover_seed_or_badrequest okEnv ⟨[], emptyQueueDb⟩
    "claude" AppType.claude (by decide) rfl (by decide)
  obtain ⟨ha, hb⟩ := h1.1 (by decide)
  exact ⟨ha, hb none none none (by decide), h2.2 "p1" (by decide)⟩

theorem strStartsWith_append_bearer (rest : String) :
    strStartsWith ("Bearer " ++ rest) "Bearer " = true := by
  simp only [strStartsWith, List.isPrefixOf_iff_prefix]
  exact ⟨rest.data, rfl⟩

theorem strDrop_append_bearer (rest : String) :
    strDrop ("Bearer " ++ rest) 7 = rest := by
  show String.mk (("Bearer ".data ++ rest.data).drop 7) = rest
  rw [List.drop_left' (by decide)]

theorem strStartsWith_bearer_decomp (v : String)
    (h : strStartsWith v "Bearer " = true) :
    v = "Bearer " ++ strDrop v 7 := by
  have hp : "Bearer ".data <+: v.data := by
    simpa [strStartsWith, List.isPrefixOf_iff_prefix] using h
  obtain ⟨t, ht⟩ := hp
  calc v = String.mk v.data := rfl
    _ = String.mk ("Bearer ".data ++ t) := by rw [ht]
    _ = "Bearer " ++ String.mk t := rfl
    _ = "Bearer " ++ String.mk (v.data.drop 7) := by
          rw [← ht, List.drop_left' (by decide)]

/-- C7 (amended): with no configured token every request is accepted; with a
configured token `tok` (which `main` trims and requires non-empty), a
request is accepted iff the Authorization header is `Bearer ` followed by
text that trims to `tok`, or the `?token=` query parameter equals `tok`;
any non-accepted request gets HTTP 401 from `/invoke`. -/
theorem control_plane_auth_characterization (raw hdr q : Option String) :
    (authTokenFromEnv raw = none →
        authOk (authTokenFromEnv raw) hdr q = true) ∧
    (∀ tok, authTokenFromEnv raw = some tok →
        (authOk (some tok) hdr q = true ↔
          (∃ rest, hdr = some ("Bearer " ++ rest) ∧ strTrim rest = tok) ∨
          q = some tok)) ∧
    (∀ command res, authOk (authTokenFromEnv raw) hdr q = false →
        invokeHttpStatus (authTokenFromEnv raw) hdr q command res = 401) := by
  refine ⟨?_, ?_, ?_⟩
  · intro h; rw [h]; rfl
  · intro tok htok
    have htokne : tok ≠ "" := by
      unfold authTokenFromEnv at htok
      cases raw with
      | none => cases htok
      | some s =>
        by_cases hts : strTrim s = ""
        · simp [hts] at htok
        · simp only [hts, if_false] at htok
          cases htok
          exact hts
    constructor
    · intro hacc
      unfold authOk at hacc
      simp only [Bool.or_eq_true, beq_iff_eq] at hacc
      rcases hacc with hb | hq
      · cases hdr with
        | none => exact absurd hb.symm htokne
        | some v =>
          cases hsw : strStartsWith v "Bearer " with
          | false => simp [hsw] at hb; exact absurd hb.symm htokne
          | true =>
            simp only [hsw, if_true] at hb
            exact Or.inl ⟨strDrop v 7,
              by rw [← strStartsWith_bearer_decomp v hsw], by simpa using hb⟩
      · cases q with
        | none => exact absurd hq.symm htokne
        | some s => exact Or.inr (by simpa using hq)
    · intro hrhs
      rcases hrhs with ⟨rest, hhdr, htr⟩ | hq
      · subst hhdr
        unfold authOk
        simp [strStartsWith_append_bearer, strDrop_append_bearer, htr]
      · subst hq
        unfold authOk
        simp
  · intro command res h
    simp [invokeHttpStatus, h]

/-- C7 (counterexample): with configured token `t`, a request carrying the
Authorization header `Bearer t ` (trailing space) and no query token is
accepted with 200, although the header does not equal `Bearer t`: the code
trims the bearer value, so acceptance is not the exact-equality test the
claim states, and no 401 is produced. -/
theorem auth_trimmed_bearer_accepted :
    authOk (some "t") (some "Bearer t ") none = true ∧
    (some "Bearer t " : Option String) ≠ some ("Bearer " ++ "t") ∧
    (none : Option String) ≠ some "t" ∧
    invokeHttpStatus (some "t") (some "Bearer t ") none "get_settings"
        (.ok Json.null) = 200 := by
  refine ⟨by decide, by decide, by decide, by decide⟩

theorem control_plane_auth_characterization_witness :
    authOk (some "t") (some "Bearer t ") none = true ∧
    invokeHttpStatus (some "t") (some "Bearer x") none "get_settings"
        (.ok Json.null) = 401 := by
  have h := control_plane_auth_characterization (some "t") (some "Bearer t ") none
  have h2 := control_plane_auth_characterization (some "t") (some "Bearer x") none
  constructor
  · exact (h.2.1 "t" (by decide)).mpr (Or.inl ⟨"t ", by decide, by decide⟩)
  · exact h2.2.2 "get_settings" (.ok Json.null) (by decide)

/-- C8 (counterexample): two `try_switch` calls for the same (app, provider)
pair can BOTH return `true`: in the interleaving where task 0 runs its whole
call before task 1 performs its dedup check, both tasks finish with `true`,
refuting "exactly one returns true" for concurrent calls. -/
theorem try_switch_two_winners :
    (concRun "P2" (concInit 2 none) [0, 0, 0, 1, 1, 1]).threads
        = [.finished true, .finished true] := by decide

/-- C8 (amended): for every interleaving of any number of concurrent
`try_switch` calls for one (app, provider) key: at most one call is inside
its switch window at any time; the key is pending exactly while one call is
inside; a call whose dedup check observes the pending key returns `false`
and leaves the shared state untouched; and once any call has returned
`true` the current provider is the target. Calls whose dedup checks happen
after a completed switch may also return `true`, so "exactly one returns
true" holds only for calls contending while the key is held. -/
theorem try_switch_concurrent_dedup (t : String) (n : Nat) (c0 : Option String)
    (sched : List Nat) :
    countCrit (concRun t (concInit n c0) sched).threads ≤ 1 ∧
    ((concRun t (concInit n c0) sched).pending = true ↔
        countCrit (concRun t (concInit n c0) sched).threads = 1) ∧
    ((ThreadPC.finished true) ∈ (concRun t (concInit n c0) sched).threads →
        (concRun t (concInit n c0) sched).current = some t) ∧
    (∀ i, (concRun t (concInit n c0) sched).threads[i]? = some .ready →
        (concRun t (concInit n c0) sched).pending = true →
        concStep t (concRun t (concInit n c0) sched) i
          = { concRun t (concInit n c0) sched with
                threads := (concRun t (concInit n c0) sched).threads.set i
                  (.finished false) }) := by
  obtain ⟨hp, hle, hcur⟩ := concInv_run t sched (concInit n c0) (concInv_init t n c0)
  refine ⟨hle, hp, ?_, ?_⟩
  · intro hmem
    exact hcur ⟨.finished true, hmem, rfl⟩
  · intro i hget hpend
    exact concStep_ready_busy hget hpend

theorem try_switch_concurrent_dedup_witness :
    (concRun "P2" (concInit 2 none) [0, 0, 0]).current = some "P2" ∧
    (concStep "P2" (concRun "P2" (concInit 2 none) [0]) 1).threads[1]?
        = some (.finished false) := by
  have h3 := try_switch_concurrent_dedup "P2" 2 none [0, 0, 0]
  have h1 := try_switch_concurrent_dedup "P2" 2 none [0]
  refine ⟨h3.2.2.1 (by decide), ?_⟩
  rw [h1.2.2.2 1 (by decide) (by decide)]
  decide

/-- C10: when the `~/.gemini` directory does not exist,
`sync_enabled_to_gemini`, `sync_single_server_to_gemini`, and
`remove_server_from_gemini` all return `Ok(())` without reading or writing
any Gemini configuration state: the world is unchanged and the access log is
empty — whatever the behavior of the validation helpers and file
accessors. -/
theorem gemini_sync_noop_without_dir (env : GeminiEnv) (w : GeminiWorld)
    (config : MultiAppConfig) (id : String) (serverEntry : Json)
    (h : w.geminiDirExists = false) :
    syncEnabledToGemini env w config = (.ok (), w, []) ∧
    syncSingleServerToGemini env w config id serverEntry = (.ok (), w, []) ∧
    removeServerFromGemini env w id = (.ok (), w, []) := by
  refine ⟨?_, ?_, ?_⟩ <;>
    simp [syncEnabledToGemini, syncSingleServerToGemini,
      removeServerFromGemini, shouldSyncGeminiMcp, h]

theorem gemini_sync_noop_without_dir_witness :
    syncEnabledToGemini ⟨fun j => .ok j, fun _ => .ok (), true, true⟩
        ⟨false, [("srv", Json.null)]⟩ ⟨⟨[]⟩⟩
      = (.ok (), ⟨false, [("srv", Json.null)]⟩, []) ∧
    syncSingleServerToGemini ⟨fun j => .ok j, fun _ => .ok (), true, true⟩
        ⟨false, [("srv", Json.null)]⟩ ⟨⟨[]⟩⟩ "srv2" Json.null
      = (.ok (), ⟨false, [("srv", Json.null)]⟩, []) ∧
    removeServerFromGemini ⟨fun j => .ok j, fun _ => .ok (), true, true⟩
        ⟨false, [("srv", Json.null)]⟩ "srv2"
      = (.ok (), ⟨false, [("srv", Json.null)]⟩, []) :=
  gemini_sync_noop_without_dir ⟨fun j => .ok j, fun _ => .ok (), true, true⟩
    ⟨false, [("srv", Json.null)]⟩ ⟨⟨[]⟩⟩ "srv2" Json.null rfl

